/-
A verification development for `ai_study_coach.py`: a three-stage educational
prompt pipeline (`AIEducationTeam.get_ai_education`) built from three expert
classes (`AIFoundationsExpert`, `PracticalAIExpert`, `LearningPathExpert`).

The Python program is embedded shallowly:
* `input_data` (a Python dict of strings) becomes an association list with
  `dictGet` modelling the `input_data.get` lookup with empty-string default, and `pyStrDict` modelling
  `str(input_data)`;
* the external Gemini model client becomes a function `Model` from the prompt
  string to a `ModelResult`, which is either a returned `response.text`
  (possibly null/empty) or a raised exception carrying a message;
* every prompt template f-string of the source is transcribed verbatim
  (apostrophes are written `\x27`, braces `\x7b`/`\x7d`);
* the `try`/`except` blocks become case analysis on `ModelResult`, and possible
  exceptions raised by the surrounding UI calls inside
  the `try` block of `get_ai_education` (outside the three stage calls) are
  modelled by an explicit fault-injection parameter;
* the `datetime.now()` timestamps become an explicit clock parameter;
* the `self.workflow_logs` mutable list becomes explicit state passing.
-/
import Mathlib

set_option linter.unusedVariables false

namespace AIStudyCoach

/-- Python `input_data`: a dict mapping field names to free-text strings,
embedded as an association list (first binding wins, as dict keys are unique). -/
abbrev InputData := List (String × String)

/-- Python dict lookup `input_data.get` with empty-string default: the value bound to `key`, or the empty
string when the key is absent. -/
def dictGet (input_data : InputData) (key : String) : String :=
  match input_data.find? (fun kv => kv.1 == key) with
  | some kv => kv.2
  | none => ""

/-- Model of Python `str(input_data)` for a dict whose keys and values are
strings: an open brace, comma-separated single-quoted key: value pairs, a close brace.  This is the rendering
`str`/`repr` produce for plain strings; it is used only as the uninterpreted text that
the `_create_general_*` templates embed wholesale. -/
def pyStrDict (input_data : InputData) : String :=
  "\x7b" ++
    String.intercalate ", "
      (input_data.map (fun kv => "\x27" ++ kv.1 ++ "\x27: \x27" ++ kv.2 ++ "\x27")) ++
  "\x7d"

/-- Outcome of one `self.model.generate_content(prompt)` call:
`ok text` is a successful response whose `.text` may be null (`none`) or a
string; `err msg` is any raised exception (network, auth, quota, malformed
response), carrying `str(e)`. -/
inductive ModelResult where
  | ok (text : Option String)
  | err (msg : String)

/-- The external model client, as a function from the full prompt sent to the
outcome of the call. -/
abbrev Model := String → ModelResult

/-- Python `response.text if response.text else fallback`: the returned text
when it is non-null and non-empty, else the fallback (both `None` and `""` are
falsy). -/
def textOrFallback (text : Option String) (fallback : String) : String :=
  match text with
  | some s => if s = "" then fallback else s
  | none => fallback

namespace AIFoundationsExpert

/-- The `self.expertise` constant of Python class `AIFoundationsExpert`. -/
def expertise : String :=
  "ai_foundations"

/-- The `self.expert_name` constant of Python class `AIFoundationsExpert`. -/
def expert_name : String :=
  "김민준 AI 기초 전문가"

/-- The `self.expert_intro` constant of Python class `AIFoundationsExpert`. -/
def expert_intro : String :=
  "
        안녕하세요, 김민준 AI 기초 전문가입니다. 
        저는 인공지능의 핵심 개념과 이론적 배경을 쉽게 설명합니다.
        12년간 AI 연구와 교육 경험을 바탕으로 복잡한 개념을 명확하게 전달해 드리겠습니다.
        "

/-- Python `AIFoundationsExpert._create_concept_prompt`. -/
def create_concept_prompt (input_data : InputData) : String :=
  "
        다음 AI 개념에 대해 기초적인 설명을 제공해주세요:
        
        " ++ dictGet input_data "concept" ++ "
        
        다음 항목을 포함하는 기초 설명을 제공해주세요:
        1. 개념의 정의와 핵심 원리
        2. 역사적 배경과 발전 과정
        3. 작동 방식의 기본 원리
        4. 해당 기술이 속한 AI 분야에서의 위치
        5. 이해하기 쉬운 비유나 예시
        "

/-- Python `AIFoundationsExpert._create_tool_basics_prompt`. -/
def create_tool_basics_prompt (input_data : InputData) : String :=
  "
        다음 AI 도구의 기본 원리와 개념에 대해 설명해주세요:
        
        도구 이름:
        " ++ dictGet input_data "tool_name" ++ "
        
        사용 목적:
        " ++ dictGet input_data "purpose" ++ "
        
        다음 항목을 포함하는 기초 설명을 제공해주세요:
        1. 해당 도구가 기반하는 AI 기술 설명
        2. 핵심 작동 원리와 알고리즘
        3. 비슷한 도구들과의 차이점
        4. 기술적 한계와 주의사항
        5. 초보자가 이해해야 할 핵심 개념
        "

/-- Python `AIFoundationsExpert._create_learning_basics_prompt`. -/
def create_learning_basics_prompt (input_data : InputData) : String :=
  "
        AI 학습을 위한 기초 개념과 배경 지식을 설명해주세요:
        
        현재 지식 수준:
        " ++ dictGet input_data "current_level" ++ "
        
        학습 목표:
        " ++ dictGet input_data "goals" ++ "
        
        다음 항목을 포함한 기초 설명을 제공해주세요:
        
        1. AI 학습을 위한 필수 기초 개념
           - 기계학습의 핵심 원리
           - 딥러닝과 신경망의 기초
           - AI 모델 학습 과정의 이해
        
        2. 학습 목표를 위해 알아야 할 이론적 배경
           - 관련 수학적/통계적 개념
           - 프로그래밍 관련 기초 지식
           - 데이터 관련 핵심 개념
        
        3. 학습 난이도와 선수 지식 설명
           - 필수적으로 알아야 할 개념
           - 추가적으로 도움이 될 배경 지식
           - 개념 간의 연결성과 학습 순서
        "

/-- Python `AIFoundationsExpert._create_ethics_basics_prompt`. -/
def create_ethics_basics_prompt (input_data : InputData) : String :=
  "
        AI 윤리 및 안전에 관한 기초 개념을 설명해주세요:
        
        관심 분야:
        " ++ dictGet input_data "area_of_interest" ++ "
        
        다음 구조로 AI 윤리 및 안전의 기초 개념을 설명해주세요:
        
        1. AI 윤리의 기본 원칙
           - 핵심 윤리적 프레임워크
           - 주요 윤리적 고려사항
           - 산업 표준과 가이드라인
        
        2. AI 안전의 기술적 기초
           - 안전 관련 기술적 개념
           - 주요 위험 요소와 취약점
           - 안전 설계의 기본 원칙
        
        3. 법적/사회적 관점
           - 관련 규제와 정책 동향
           - 사회적 영향과 책임
           - 투명성과 설명 가능성의 중요성
        "

/-- Python `AIFoundationsExpert._create_cs_spec_basics_prompt`. -/
def create_cs_spec_basics_prompt (input_data : InputData) : String :=
  "
        CS 학생을 위한 스펙 가이드의 기초 개념과 이론적 배경을 설명해주세요:
        
        현재 상황:
        " ++ dictGet input_data "current_situation" ++ "
        
        목표:
        " ++ dictGet input_data "career_goals" ++ "
        
        다음 항목을 포함한 기초 설명을 제공해주세요:
        
        1. CS 전공의 핵심 기초 개념
           - 컴퓨터과학의 기본 원리와 이론적 배경
           - 프로그래밍 언어의 분류와 특징
           - 자료구조와 알고리즘의 중요성
           - 소프트웨어 개발 생명주기
        
        2. 학년별 필수 이론 지식
           - 1-2학년: 기초 수학, 프로그래밍 기초, 컴퓨터 구조
           - 3-4학년: 고급 알고리즘, 시스템 설계, 전공 심화
           - 각 학년별로 필요한 수학적 배경과 이론적 기초
        
        3. 기술 스택의 이론적 이해
           - 웹 개발: HTTP, REST API, 데이터베이스 이론
           - 모바일 개발: 플랫폼별 아키텍처, 네이티브 vs 크로스플랫폼
           - AI/ML: 머신러닝 이론, 통계학, 선형대수학
           - 클라우드: 분산시스템, 마이크로서비스 아키텍처
        
        4. 학업 성취도와 GPA의 중요성
           - 전공 GPA의 의미와 중요성
           - 각 학년별 권장 GPA 목표
           - 수학, 전공 과목의 가중치와 중요도
        "

/-- Python `AIFoundationsExpert._create_general_foundations_prompt`. -/
def create_general_foundations_prompt (input_data : InputData) (service_type : String) : String :=
  "
        다음 " ++ service_type ++ " 요청에 대해 AI 기초 개념 관점에서 설명해주세요:
        
        요청 내용:
        " ++ pyStrDict input_data ++ "
        
        핵심 개념, 이론적 배경, 기술적 원리를 포함한 기초 설명을 제공해주세요.
        "

end AIFoundationsExpert

namespace PracticalAIExpert

/-- The `self.expertise` constant of Python class `PracticalAIExpert`. -/
def expertise : String :=
  "practical_applications"

/-- The `self.expert_name` constant of Python class `PracticalAIExpert`. -/
def expert_name : String :=
  "박서연 실무 응용 전문가"

/-- The `self.expert_intro` constant of Python class `PracticalAIExpert`. -/
def expert_intro : String :=
  "
        안녕하세요, 박서연 실무 응용 전문가입니다.
        저는 AI의 실무 적용 방법과 현업 사례를 전문으로 합니다.
        10년간의 AI 프로젝트 구현 및 컨설팅 경험을 통해 이론을 실제로 적용하는 방법을 안내해 드리겠습니다.
        "

/-- Python `PracticalAIExpert._create_concept_practical_prompt`. -/
def create_concept_practical_prompt (previous_explanation : String) (input_data : InputData) : String :=
  "
        앞서 설명된 AI 개념의 실무 활용 사례와 적용 방법을 제시해주세요:
        
        1. 해당 개념의 주요 산업별 활용 사례
           - 기술 기업에서의 활용법
           - 금융, 의료, 교육 등 다양한 분야의 적용 예시
           - 스타트업과 대기업의 적용 차이
        
        2. 실제 구현 시 고려사항
           - 일반적인 구현 과정과 단계
           - 자주 발생하는 문제점과 해결 방법
           - 필요한 인프라 및 리소스
        
        3. 최신 트렌드와 미래 전망
           - 현재 업계 동향과 기술 발전 방향
           - 주목할 만한 혁신 사례
           - 미래 잠재적 응용 분야
        
        원본 개념:
        " ++ dictGet input_data "concept" ++ "
        "

/-- Python `PracticalAIExpert._create_tool_practical_prompt`. -/
def create_tool_practical_prompt (previous_explanation : String) (input_data : InputData) : String :=
  "
        앞서 설명된 AI 도구의 실전 사용법과 활용 사례를 제시해주세요:
        
        1. 도구의 실제 사용 시나리오
           - 일반적인 사용 워크플로우
           - 효과적인 활용을 위한 설정 및 팁
           - 고급 활용법과 숨겨진 기능
        
        2. 산업별 활용 사례
           - 대표적인 성공 사례 분석
           - 실제 비즈니스 가치와 ROI
           - 사용자 피드백과 평가
        
        3. 유사 도구와의 비교 및 통합
           - 경쟁 도구와의 장단점 비교
           - 다른 AI 도구와의 통합 방법
           - 생태계 내 위치와 호환성
        
        도구 이름:
        " ++ dictGet input_data "tool_name" ++ "
        
        사용 목적:
        " ++ dictGet input_data "purpose" ++ "
        "

/-- Python `PracticalAIExpert._create_learning_practical_prompt`. -/
def create_learning_practical_prompt (previous_explanation : String) (input_data : InputData) : String :=
  "
        AI 학습을 위한 실무 중심 접근법과 실전 적용 방법을 제안해주세요:
        
        1. 실무 중심 학습 방법론
           - 프로젝트 기반 학습 접근법
           - 실제 문제 해결을 통한 학습 전략
           - 업계 표준 도구 및 워크플로우 습득법
        
        2. 실전 경험 구축 방법
           - 포트폴리오 프로젝트 아이디어
           - 오픈소스 기여 및 커뮤니티 참여 방법
           - 인턴십 및 실무 경험 확보 전략
        
        3. 업계 연결 및 네트워킹
           - 주요 커뮤니티 및 컨퍼런스 소개
           - 전문가 네트워킹 구축 방법
           - AI 분야 취업/전환 준비 전략
        
        현재 지식 수준:
        " ++ dictGet input_data "current_level" ++ "
        
        학습 목표:
        " ++ dictGet input_data "goals" ++ "
        "

/-- Python `PracticalAIExpert._create_ethics_practical_prompt`. -/
def create_ethics_practical_prompt (previous_explanation : String) (input_data : InputData) : String :=
  "
        AI 윤리 및 안전의 실무 적용 방법과 사례를 제시해주세요:
        
        1. 윤리적 설계 및 개발 실무
           - 윤리적 AI 개발 프로세스 및 프레임워크
           - 실제 프로젝트에서의 윤리적 검토 방법
           - 윤리적 문제 발견 및 해결 사례
        
        2. 규제 준수 및 거버넌스
           - 주요 규제 준수 전략
           - 윤리위원회 및 감독 메커니즘 구축
           - 문서화 및 투명성 확보 방법
        
        3. 현업 사례 분석
           - 윤리적 문제로 인한 실패 사례
           - 성공적인 윤리적 AI 구현 사례
           - 업계별 특수한 윤리적 고려사항
        
        관심 분야:
        " ++ dictGet input_data "area_of_interest" ++ "
        "

/-- Python `PracticalAIExpert._create_cs_spec_practical_prompt`. -/
def create_cs_spec_practical_prompt (previous_explanation : String) (input_data : InputData) : String :=
  "
        CS 학생을 위한 스펙 가이드의 실무 적용 사례와 업계 동향을 제시해주세요:
        
        현재 상황:
        " ++ dictGet input_data "current_situation" ++ "
        
        목표:
        " ++ dictGet input_data "career_goals" ++ "
        
        다음 항목을 포함한 실무 관점의 설명을 제공해주세요:
        
        1. 업계별 실제 요구사항과 스펙
           - 빅테크 (구글, 마이크로소프트, 아마존): 알고리즘, 시스템 설계, 클라우드
           - 스타트업: 풀스택 개발, 빠른 학습 능력, 다양한 기술 스택
           - 금융/핀테크: 보안, 규정 준수, 고성능 시스템
           - 게임/엔터테인먼트: 실시간 처리, 그래픽스, 최적화
        
        2. 학년별 실무 경험 구축 방법
           - 1-2학년: 개인 프로젝트, 해커톤 참여, 오픈소스 기여
           - 3-4학년: 인턴십, 대회 참여, 스타트업 아르바이트
           - 졸업 후: 포트폴리오 구축, 네트워킹, 기술 블로그
        
        3. 실제 채용 프로세스와 평가 기준
           - 코딩 테스트: 알고리즘, 자료구조, 문제 해결 능력
           - 기술 면접: 시스템 설계, 아키텍처, 트레이드오프
           - 포트폴리오: 프로젝트의 기술적 깊이와 비즈니스 임팩트
           - 소프트 스킬: 커뮤니케이션, 팀워크, 학습 능력
        
        4. 최신 기술 트렌드와 업계 동향
           - AI/ML: MLOps, LLM, 생성형 AI
           - 클라우드: 멀티클라우드, 서버리스, 컨테이너
           - 웹 개발: JAMstack, 마이크로프론트엔드, WebAssembly
           - 모바일: 크로스플랫폼, PWA, 모바일 최적화
        "

/-- Python `PracticalAIExpert._create_general_practical_prompt`. -/
def create_general_practical_prompt (previous_explanation : String) (input_data : InputData) (service_type : String) : String :=
  "
        다음 " ++ service_type ++ " 요청에 대해 AI 실무 응용 관점에서 분석해주세요:
        
        요청 내용:
        " ++ pyStrDict input_data ++ "
        
        실제 활용 사례, 구현 방법, 업계 트렌드를 구체적으로 제시해주세요.
        "

end PracticalAIExpert

namespace LearningPathExpert

/-- The `self.expertise` constant of Python class `LearningPathExpert`. -/
def expertise : String :=
  "learning_pathways"

/-- The `self.expert_name` constant of Python class `LearningPathExpert`. -/
def expert_name : String :=
  "이준호 학습 경로 전문가"

/-- The `self.expert_intro` constant of Python class `LearningPathExpert`. -/
def expert_intro : String :=
  "
        안녕하세요, 이준호 학습 경로 전문가입니다.
        저는 AI 학습 계획 수립과 성장 로드맵 설계를 전문으로 합니다.
        15년간의 교육 경험을 바탕으로 여러분에게 최적화된 학습 경로를 제안해 드리겠습니다.
        "

/-- Python `LearningPathExpert._create_concept_learning_prompt`. -/
def create_concept_learning_prompt (previous_explanation : String) (input_data : InputData) : String :=
  "
        해당 AI 개념을 효과적으로 학습하기 위한 맞춤형 학습 경로를 제안해주세요:
        
        1. 단계별 학습 계획
           - 초보자부터 전문가까지의 학습 단계
           - 각 단계별 핵심 목표와 성취 지표
           - 예상 소요 시간과 난이도
        
        2. 최적의 학습 자원
           - 추천 온라인 강의, 책, 튜토리얼
           - 무료 및 유료 자원 균형있는 추천
           - 자기주도 학습 vs 지도 학습 옵션
        
        3. 실습 및 응용 프로젝트
           - 단계별 핸즈온 프로젝트 아이디어
           - 학습 내용 검증을 위한 미니 프로젝트
           - 포트폴리오에 추가할 수 있는 응용 과제
        
        4. 학습 진행 측정 및 피드백 방법
           - 자가 평가 방법
           - 지식 검증 및 진단 도구
           - 커뮤니티 피드백 활용법
        
        원본 개념:
        " ++ dictGet input_data "concept" ++ "
        "

/-- Python `LearningPathExpert._create_tool_learning_prompt`. -/
def create_tool_learning_prompt (previous_explanation : String) (input_data : InputData) : String :=
  "
        해당 AI 도구의 숙련도를 높이기 위한 학습 경로를 제안해주세요:
        
        1. 도구 숙련 로드맵
           - 초보자부터 전문가까지의 학습 단계
           - 단계별 기능 익히기 순서
           - 숙련도 수준별 목표와 평가 방법
        
        2. 실습 중심 학습 계획
           - 핵심 기능별 실습 과제
           - 난이도별 프로젝트 아이디어
           - 실전 시나리오 기반 연습
        
        3. 보완 학습 자원
           - 공식 및 비공식 문서와 튜토리얼
           - 커뮤니티 및 포럼 활용법
           - 전문가 인사이트 및 고급 팁 확보 방법
        
        4. 지속적 역량 개발 전략
           - 최신 기능 및 업데이트 학습법
           - 관련 도구 및 확장 기술 습득
           - 전문성 증명 및 인증 방법
        
        도구 이름:
        " ++ dictGet input_data "tool_name" ++ "
        
        사용 목적:
        " ++ dictGet input_data "purpose" ++ "
        "

/-- Python `LearningPathExpert._create_comprehensive_learning_prompt`. -/
def create_comprehensive_learning_prompt (previous_explanation : String) (input_data : InputData) : String :=
  "
        목표 달성을 위한 종합적인 AI 학습 로드맵을 제안해주세요:
        
        1. 개인화된 학습 경로
           - 현재 수준에서 목표까지의 단계별 계획
           - 학습자 특성에 맞는 접근법 및 방법론
           - 단기/중기/장기 목표 설정 및 마일스톤
        
        2. 핵심 학습 자원 큐레이션
           - 온라인 코스, 책, 튜토리얼 등 선별된 자원
           - 품질과 적합성 기준의 자원 평가
           - 비용 효율적인 학습 자원 활용 전략
        
        3. 실전 경험 구축 프레임워크
           - 단계적 프로젝트 구성 계획
           - 포트폴리오 구축 전략
           - 실전 환경 시뮬레이션 및 연습 방법
        
        4. 지속적 피드백 및 개선 시스템
           - 진행 상황 모니터링 및 평가 방법
           - 멘토십 및 코칭 활용 전략
           - 학습 습관 및 효율성 개선 방법
        
        5. 학습 여정 시간표
           - 주간/월간/분기별 학습 일정 제안
           - 시간 관리 및 학습 균형 전략
           - 장애물 극복 및 동기 유지 방법
        
        현재 지식 수준:
        " ++ dictGet input_data "current_level" ++ "
        
        학습 목표:
        " ++ dictGet input_data "goals" ++ "
        "

/-- Python `LearningPathExpert._create_ethics_learning_prompt`. -/
def create_ethics_learning_prompt (previous_explanation : String) (input_data : InputData) : String :=
  "
        AI 윤리 및 안전에 대한 체계적인 학습 경로를 제안해주세요:
        
        1. 윤리적 AI 역량 개발 로드맵
           - 기초부터 고급까지의 학습 단계
           - 역할별 필요 지식과 역량(개발자/관리자/정책입안자)
           - 윤리적 사고방식과 평가 능력 개발
        
        2. 추천 학습 자원
           - 교재, 온라인 코스, 케이스 스터디
           - 윤리적 프레임워크 및 도구
           - 인증 및 전문가 과정
        
        3. 실습 및 토론 기반 학습
           - 윤리적 딜레마 시나리오 분석
           - 그룹 토론 및 사례 연구 방법
           - 윤리적 감사 및 평가 실습
        
        4. 지속적인 역량 발전 계획
           - 윤리적 AI 분야 최신 동향 파악 방법
           - 전문가 커뮤니티 및 컨퍼런스 참여
           - 자기 평가 및 성찰 방법론
        
        관심 분야:
        " ++ dictGet input_data "area_of_interest" ++ "
        "

/-- Python `LearningPathExpert._create_cs_spec_learning_prompt`. -/
def create_cs_spec_learning_prompt (previous_explanation : String) (input_data : InputData) : String :=
  "
        CS 학생을 위한 맞춤형 스펙 구축 학습 경로를 제안해주세요:
        
        현재 상황:
        " ++ dictGet input_data "current_situation" ++ "
        
        목표:
        " ++ dictGet input_data "career_goals" ++ "
        
        다음 구조로 구체적인 학습 경로를 제안해주세요:
        
        1. 단계별 스펙 구축 로드맵
           - 1단계 (1-3개월): 기초 기술 스택 완성
           - 2단계 (3-6개월): 프로젝트 경험 쌓기
           - 3단계 (6-12개월): 전문 분야 심화
           - 4단계 (12개월+): 포트폴리오 완성 및 취업 준비
        
        2. 학년별 구체적인 학습 계획
           - 1학년: 프로그래밍 기초, 수학 기초, 컴퓨터 구조
           - 2학년: 자료구조/알고리즘, 웹 개발 기초, 데이터베이스
           - 3학년: 프레임워크 숙련, 클라우드 기초, 인턴십 준비
           - 4학년: 전문 분야 심화, 포트폴리오 완성, 취업 준비
        
        3. 추천 학습 자원과 도구
           - 온라인 강의: Coursera, edX, Udemy, 인프런
           - 책: 각 분야별 필수 서적과 참고서
           - 실습 환경: GitHub, AWS Free Tier, Docker
           - 커뮤니티: Stack Overflow, Reddit, 기술 블로그
        
        4. 프로젝트 포트폴리오 구축 전략
           - 개인 프로젝트: 3-5개의 완성된 프로젝트
           - 오픈소스 기여: GitHub 활동, 기여도 증명
           - 기술 블로그: 학습 과정과 프로젝트 기록
           - 대회 참여: 해커톤, 알고리즘 대회, 해커랭크
        
        5. GPA 관리 및 학업 전략
           - 전공 과목 우선순위와 학습 방법
           - 수학 과목의 중요성과 학습 전략
           - 프로젝트와 학업의 균형 맞추기
           - 각 학년별 목표 GPA 설정
        
        6. 취업 준비 체크리스트
           - 이력서 작성: 기술 스택, 프로젝트 경험
           - 포트폴리오 사이트: GitHub Pages, 개인 웹사이트
           - 코딩 테스트 준비: LeetCode, 프로그래머스
           - 면접 준비: 기술 면접, 시스템 설계, 행동 면접
        
        7. 네트워킹과 커리어 개발
           - 기술 컨퍼런스 참여: PyCon, JSConf, AWS Summit
           - 멘토링: 선배, 교수, 업계 전문가
           - 인턴십 신청: 대기업, 스타트업, 중견기업
           - 자격증 취득: AWS, Google Cloud, 정보처리기사
        "

/-- Python `LearningPathExpert._create_general_learning_prompt`. -/
def create_general_learning_prompt (previous_explanation : String) (input_data : InputData) (service_type : String) : String :=
  "
        다음 " ++ service_type ++ " 요청에 대해 학습 경로 관점에서 맞춤형 계획을 제안해주세요:
        
        요청 내용:
        " ++ pyStrDict input_data ++ "
        
        체계적인 학습 단계, 추천 자원, 실습 계획, 진행 평가 방법을 구체적으로 제시해주세요.
        "

end LearningPathExpert
namespace AIFoundationsExpert

/-- The persona-preamble f-string that Python `AIFoundationsExpert.explain` wraps around the selected template before calling the model. -/
def wrap (prompt : String) : String :=
  "
            당신은 \x27" ++ expert_name ++ "\x27이라는 AI 기초 개념 전문가입니다.
            " ++ expert_intro ++ "
            
            " ++ prompt ++ "
            
            설명 결과에 핵심 개념과 이론적 배경을 반드시 포함해 주세요.
            가능한 한 복잡한 용어는 피하고, 초보자도 이해할 수 있는 명확한 설명을 제공하세요.
            "

end AIFoundationsExpert

namespace PracticalAIExpert

/-- The persona-preamble f-string that Python `PracticalAIExpert.enhance` wraps around the selected template before calling the model. -/
def wrap (previous_explanation : String) (prompt : String) : String :=
  "
            당신은 \x27" ++ expert_name ++ "\x27이라는 AI 실무 응용 전문가입니다.
            " ++ expert_intro ++ "
            
            AI 기초 전문가가 제공한 다음 설명을 검토하고, 실무 응용 관점에서 보완해주세요:
            
            === 기초 전문가의 설명 ===
            " ++ previous_explanation ++ "
            === 설명 끝 ===
            
            " ++ prompt ++ "
            
            구체적인 실무 사례, 적용 방법, 업계 동향과 트렌드를 반드시 포함해 주세요.
            "

end PracticalAIExpert

namespace LearningPathExpert

/-- The persona-preamble f-string that Python `LearningPathExpert.finalize` wraps around the selected template before calling the model. -/
def wrap (previous_explanation : String) (prompt : String) : String :=
  "
            당신은 \x27" ++ expert_name ++ "\x27이라는 학습 경로 전문가입니다.
            " ++ expert_intro ++ "
            
            기초 전문가와 실무 응용 전문가가 제공한, 다음 설명을 검토하고 최종적으로 학습 경로를 완성해주세요:
            
            === 이전 전문가들의 설명 ===
            " ++ previous_explanation ++ "
            === 설명 끝 ===
            
            " ++ prompt ++ "
            
            최종 안내에는 다음 세 전문가의 관점이 균형있게 통합되어야 합니다:
            1. 기초 개념 전문가 (핵심 개념과 이론적 배경)
            2. 실무 응용 전문가 (실제 적용 사례와 업계 통찰력)
            3. 학습 경로 전문가 (개인화된 학습 계획과 자원)
            
            명확하고 실행 가능한 단계별 학습 가이드를 제공해주세요.
            "

end LearningPathExpert
namespace AIFoundationsExpert

/-- The per-service-type `if`/`elif` dispatch at the top of
`AIFoundationsExpert.explain`, selecting the stage-1 template. -/
def select_prompt (service_type : String) (input_data : InputData) : String :=
  if service_type = "AI 개념 이해" then create_concept_prompt input_data
  else if service_type = "AI 도구 사용법" then create_tool_basics_prompt input_data
  else if service_type = "AI 학습 계획" then create_learning_basics_prompt input_data
  else if service_type = "AI 윤리 및 안전" then create_ethics_basics_prompt input_data
  else if service_type = "CS 학생 스펙 가이드" then create_cs_spec_basics_prompt input_data
  else create_general_foundations_prompt input_data service_type

/-- The full composed prompt `AIFoundationsExpert.explain` sends to the model:
the selected template wrapped in the persona preamble. -/
def full_prompt (service_type : String) (input_data : InputData) : String :=
  wrap (select_prompt service_type input_data)

/-- Python `AIFoundationsExpert.explain(service_type, input_data)`:
build the prompt, call the model; on a response return its text or the fixed
retry fallback when the text is null/empty; on a raised exception return the
stage-local error string embedding `str(e)`. -/
def explain (model : Model) (service_type : String) (input_data : InputData) : String :=
  match model (full_prompt service_type input_data) with
  | .ok t => textOrFallback t "응답을 생성할 수 없습니다. 다시 시도해주세요."
  | .err e => "기초 개념 설명 중 오류가 발생했습니다: " ++ e

end AIFoundationsExpert

namespace PracticalAIExpert

/-- The per-service-type `if`/`elif` dispatch at the top of
`PracticalAIExpert.enhance`, selecting the stage-2 template. -/
def select_prompt (previous_explanation : String) (service_type : String)
    (input_data : InputData) : String :=
  if service_type = "AI 개념 이해" then create_concept_practical_prompt previous_explanation input_data
  else if service_type = "AI 도구 사용법" then create_tool_practical_prompt previous_explanation input_data
  else if service_type = "AI 학습 계획" then create_learning_practical_prompt previous_explanation input_data
  else if service_type = "AI 윤리 및 안전" then create_ethics_practical_prompt previous_explanation input_data
  else if service_type = "CS 학생 스펙 가이드" then create_cs_spec_practical_prompt previous_explanation input_data
  else create_general_practical_prompt previous_explanation input_data service_type

/-- The full composed prompt `PracticalAIExpert.enhance` sends to the model:
the persona preamble, the quoted previous explanation, and the selected
template. -/
def full_prompt (previous_explanation : String) (service_type : String)
    (input_data : InputData) : String :=
  wrap previous_explanation (select_prompt previous_explanation service_type input_data)

/-- Python `PracticalAIExpert.enhance(previous_explanation, service_type,
input_data)`: build the prompt around the stage-1 output, call the model; same
success/empty/exception policy as stage 1 with stage-2 texts. -/
def enhance (model : Model) (previous_explanation : String) (service_type : String)
    (input_data : InputData) : String :=
  match model (full_prompt previous_explanation service_type input_data) with
  | .ok t => textOrFallback t "실무 응용 설명을 생성할 수 없습니다. 다시 시도해주세요."
  | .err e => "실무 응용 설명 중 오류가 발생했습니다: " ++ e

end PracticalAIExpert

namespace LearningPathExpert

/-- The per-service-type `if`/`elif` dispatch at the top of
`LearningPathExpert.finalize`, selecting the stage-3 template. -/
def select_prompt (previous_explanation : String) (service_type : String)
    (input_data : InputData) : String :=
  if service_type = "AI 개념 이해" then create_concept_learning_prompt previous_explanation input_data
  else if service_type = "AI 도구 사용법" then create_tool_learning_prompt previous_explanation input_data
  else if service_type = "AI 학습 계획" then create_comprehensive_learning_prompt previous_explanation input_data
  else if service_type = "AI 윤리 및 안전" then create_ethics_learning_prompt previous_explanation input_data
  else if service_type = "CS 학생 스펙 가이드" then create_cs_spec_learning_prompt previous_explanation input_data
  else create_general_learning_prompt previous_explanation input_data service_type

/-- The full composed prompt `LearningPathExpert.finalize` sends to the model:
the persona preamble, the quoted previous explanations, and the selected
template. -/
def full_prompt (previous_explanation : String) (service_type : String)
    (input_data : InputData) : String :=
  wrap previous_explanation (select_prompt previous_explanation service_type input_data)

/-- Python `LearningPathExpert.finalize(previous_explanation, service_type,
input_data)`: build the prompt around the stage-2 output, call the model; same
success/empty/exception policy with stage-3 texts. -/
def finalize (model : Model) (previous_explanation : String) (service_type : String)
    (input_data : InputData) : String :=
  match model (full_prompt previous_explanation service_type input_data) with
  | .ok t => textOrFallback t "학습 경로를 생성할 수 없습니다. 다시 시도해주세요."
  | .err e => "학습 경로 생성 중 오류가 발생했습니다: " ++ e

end LearningPathExpert

/-- One entry of `workflow_log["steps"]`. -/
structure StageRecord where
  expert : String
  action : String
  timestamp : String

/-- The `workflow_log` dict built by `AIEducationTeam.get_ai_education`. -/
structure RunLog where
  service_type : String
  timestamp : String
  experts_involved : List String
  steps : List StageRecord
  status : String
  error : Option String

/-- Where, inside the `try` block of `get_ai_education` but outside the three stage
calls, an exception may strike: the surrounding Streamlit UI calls and
`time.sleep` run before stage 1, between a step append and the next stage
call, and after the third step append (before `status` is set to
`completed`).  The three stage calls themselves never raise. -/
inductive FaultPoint where
  | beforeStage1
  | afterStep1
  | afterStep2
  | afterStep3

/-- An optional injected exception: the point at which it is raised and
`str(e)`.  `none` is a run in which no exception occurs. -/
abbrev Fault := Option (FaultPoint × String)

/-- The fixed user-facing apology `get_ai_education` returns from its
`except` handler. -/
def apology : String := "죄송합니다. 처리 중 오류가 발생했습니다. 다시 시도해주세요."

/-- The `experts_involved` constant of the workflow log. -/
def expertsInvolved : List String :=
  ["AIFoundationsExpert", "PracticalAIExpert", "LearningPathExpert"]

/-- What one call of `AIEducationTeam.get_ai_education` produces: the returned
string, the workflow log it appends to `self.workflow_logs`, and — as an
observation of the external interface — the prompts it sent to the model
client, in order. -/
structure RunResult where
  final_text : String
  log : RunLog
  prompts_sent : List String

/-- Python `AIEducationTeam.get_ai_education(service_type, input_data)` for a
single run: the `try` body runs the three experts in order, appending one step
record after each; if the injected exception strikes, the `except` handler
marks the log `error`, records `str(e)` and returns the apology.  `clock n`
is the string the n-th `datetime.now().strftime(...)` call produces. -/
def get_ai_education_core (model : Model) (clock : Nat → String) (fault : Fault)
    (service_type : String) (input_data : InputData) : RunResult :=
  let workflow_log : RunLog :=
    { service_type := service_type
      timestamp := clock 0
      experts_involved := expertsInvolved
      steps := []
      status := "in_progress"
      error := none }
  match fault with
  | some (.beforeStage1, e) =>
      { final_text := apology
        log := { workflow_log with status := "error", error := some e }
        prompts_sent := [] }
  | _ =>
    let p1 := AIFoundationsExpert.full_prompt service_type input_data
    let initial_explanation := AIFoundationsExpert.explain model service_type input_data
    let log1 := { workflow_log with
      steps := workflow_log.steps ++ [({ expert := "AIFoundationsExpert", action := "initial_explanation", timestamp := clock 1 } : StageRecord)] }
    match fault with
    | some (.afterStep1, e) =>
        { final_text := apology
          log := { log1 with status := "error", error := some e }
          prompts_sent := [p1] }
    | _ =>
      let p2 := PracticalAIExpert.full_prompt initial_explanation service_type input_data
      let practical_enhanced_explanation :=
        PracticalAIExpert.enhance model initial_explanation service_type input_data
      let log2 := { log1 with
        steps := log1.steps ++ [({ expert := "PracticalAIExpert", action := "practical_enhancement", timestamp := clock 2 } : StageRecord)] }
      match fault with
      | some (.afterStep2, e) =>
          { final_text := apology
            log := { log2 with status := "error", error := some e }
            prompts_sent := [p1, p2] }
      | _ =>
        let p3 := LearningPathExpert.full_prompt practical_enhanced_explanation service_type input_data
        let final_guidance :=
          LearningPathExpert.finalize model practical_enhanced_explanation service_type input_data
        let log3 := { log2 with
          steps := log2.steps ++ [({ expert := "LearningPathExpert", action := "finalization", timestamp := clock 3 } : StageRecord)] }
        match fault with
        | some (.afterStep3, e) =>
            { final_text := apology
              log := { log3 with status := "error", error := some e }
              prompts_sent := [p1, p2, p3] }
        | _ =>
            { final_text := final_guidance
              log := { log3 with status := "completed" }
              prompts_sent := [p1, p2, p3] }

/-- Python `get_ai_education` as seen by the caller: the returned text together with
the updated `self.workflow_logs` list (the log of the run is appended before
returning, on both the normal and the error path). -/
def get_ai_education (model : Model) (clock : Nat → String) (fault : Fault)
    (service_type : String) (input_data : InputData) (workflow_logs : List RunLog) :
    String × List RunLog :=
  let r := get_ai_education_core model clock fault service_type input_data
  (r.final_text, workflow_logs ++ [r.log])

/-- The five `service_type` strings named by the `if`/`elif` chains of all
three experts (the closed service enumeration of the UI). -/
def knownServiceTypes : List String :=
  ["AI 개념 이해", "AI 도구 사용법", "AI 학습 계획", "AI 윤리 및 안전", "CS 학생 스펙 가이드"]

/-- Predicate: `needle` occurs verbatim as a substring of `hay`. -/
def containsStr (hay needle : String) : Prop :=
  ∃ a b : String, hay = a ++ needle ++ b

/-- The per-stage result contract of the spec: on a model response with
non-empty text the stage returns that text, on a null/empty text it returns
the fixed per-stage fallback, and on a raised model exception it returns the
per-stage error string with the message of the exception appended. -/
def stage_contract (outcome : ModelResult) (result fallback errPre : String) : Prop :=
  (∀ t : String, outcome = .ok (some t) → t ≠ "" → result = t) ∧
  ((outcome = .ok none ∨ outcome = .ok (some "")) → result = fallback) ∧
  (∀ msg : String, outcome = .err msg → result = errPre ++ msg)


/-! ### General lemmas about verbatim substring occurrence -/

theorem containsStr_refl (n : String) : containsStr n n :=
  ⟨"", "", by simp [String.empty_append, String.append_empty]⟩

theorem containsStr_append_left (a : String) {h n : String} (H : containsStr h n) :
    containsStr (a ++ h) n := by
  obtain ⟨x, y, rfl⟩ := H
  exact ⟨a ++ x, y, by simp [String.append_assoc]⟩

theorem containsStr_append_right {h n : String} (b : String) (H : containsStr h n) :
    containsStr (h ++ b) n := by
  obtain ⟨x, y, rfl⟩ := H
  exact ⟨x, y ++ b, by simp [String.append_assoc]⟩

/-- The stage-2 persona wrapper embeds the text of the previous stage verbatim. -/
theorem practical_wrap_contains_previous (previous_explanation prompt : String) :
    containsStr (PracticalAIExpert.wrap previous_explanation prompt) previous_explanation := by
  unfold PracticalAIExpert.wrap
  apply containsStr_append_right
  apply containsStr_append_right
  apply containsStr_append_right
  apply containsStr_append_left
  exact containsStr_refl previous_explanation

/-- The stage-3 persona wrapper embeds the text of the previous stage verbatim. -/
theorem learning_wrap_contains_previous (previous_explanation prompt : String) :
    containsStr (LearningPathExpert.wrap previous_explanation prompt) previous_explanation := by
  unfold LearningPathExpert.wrap
  apply containsStr_append_right
  apply containsStr_append_right
  apply containsStr_append_right
  apply containsStr_append_left
  exact containsStr_refl previous_explanation



/-! ### The claims -/

/-- Claim C1: a fault-free run of `get_ai_education` sends exactly three
prompts to the model client, in the order Foundations, Practical,
LearningPath, and threads context forward: the stage-2 composed prompt
contains the returned text of stage 1 verbatim as a substring, and the stage-3
composed prompt contains the returned text of stage 2 verbatim as a substring. -/
theorem C1_pipeline_order_and_threading (model : Model) (clock : Nat → String)
    (service_type : String) (input_data : InputData) :
    (get_ai_education_core model clock none service_type input_data).prompts_sent =
      [AIFoundationsExpert.full_prompt service_type input_data,
       PracticalAIExpert.full_prompt (AIFoundationsExpert.explain model service_type input_data)
         service_type input_data,
       LearningPathExpert.full_prompt
         (PracticalAIExpert.enhance model (AIFoundationsExpert.explain model service_type input_data)
           service_type input_data) service_type input_data] ∧
    containsStr ((get_ai_education_core model clock none service_type input_data).prompts_sent.getD 1 "")
      (AIFoundationsExpert.explain model service_type input_data) ∧
    containsStr ((get_ai_education_core model clock none service_type input_data).prompts_sent.getD 2 "")
      (PracticalAIExpert.enhance model (AIFoundationsExpert.explain model service_type input_data)
        service_type input_data) := by
  refine ⟨rfl, ?_, ?_⟩
  · exact practical_wrap_contains_previous _ _
  · exact learning_wrap_contains_previous _ _

/-- Claim C2: if an exception strikes inside the `try` body of `get_ai_education`
outside the three stage calls — at any of the possible fault points, with any
message — the run swallows it: the log status is set to `error`, the
message is recorded, the log is appended to the log store, and the fixed
apology string is returned as the final text.  No exception escapes. -/
theorem C2_pipeline_exception_converted_to_data (model : Model) (clock : Nat → String)
    (fp : FaultPoint) (e : String) (service_type : String) (input_data : InputData)
    (workflow_logs : List RunLog) :
    ∃ l : RunLog,
      get_ai_education model clock (some (fp, e)) service_type input_data workflow_logs =
        (apology, workflow_logs ++ [l]) ∧
      l.status = "error" ∧ l.error = some e ∧ l.service_type = service_type := by
  cases fp
  · exact ⟨_, rfl, rfl, rfl, rfl⟩
  · exact ⟨_, rfl, rfl, rfl, rfl⟩
  · exact ⟨_, rfl, rfl, rfl, rfl⟩
  · exact ⟨_, rfl, rfl, rfl, rfl⟩

/-- A stage body of the common shape satisfies the per-stage contract. -/
theorem stage_contract_of_match (outcome : ModelResult) (fallback errPre : String) :
    stage_contract outcome
      (match outcome with
       | .ok t => textOrFallback t fallback
       | .err e => errPre ++ e) fallback errPre := by
  refine ⟨?_, ?_, ?_⟩
  · intro t h ht
    subst h
    simp [textOrFallback, ht]
  · intro h
    rcases h with h | h <;> subst h <;> simp [textOrFallback]
  · intro msg h
    subst h
    rfl

/-- Claim C3: each of the three stage runs always returns a string and never
raises: on a model success with non-empty text it returns that text, on a
success with null/empty text it returns the fixed per-stage retry-fallback
string, and on any model failure it returns the per-stage error string with the
message of the failure appended. -/
theorem C3_stage_error_policy (model : Model) (service_type : String)
    (input_data : InputData) (previous_explanation : String) :
    stage_contract (model (AIFoundationsExpert.full_prompt service_type input_data))
      (AIFoundationsExpert.explain model service_type input_data)
      "응답을 생성할 수 없습니다. 다시 시도해주세요."
      "기초 개념 설명 중 오류가 발생했습니다: " ∧
    stage_contract (model (PracticalAIExpert.full_prompt previous_explanation service_type input_data))
      (PracticalAIExpert.enhance model previous_explanation service_type input_data)
      "실무 응용 설명을 생성할 수 없습니다. 다시 시도해주세요."
      "실무 응용 설명 중 오류가 발생했습니다: " ∧
    stage_contract (model (LearningPathExpert.full_prompt previous_explanation service_type input_data))
      (LearningPathExpert.finalize model previous_explanation service_type input_data)
      "학습 경로를 생성할 수 없습니다. 다시 시도해주세요."
      "학습 경로 생성 중 오류가 발생했습니다: " :=
  ⟨stage_contract_of_match _ _ _, stage_contract_of_match _ _ _, stage_contract_of_match _ _ _⟩

/-- Witness for C3: the contract applied at a concrete model that returns
"X" on every call yields `explain = "X"`. -/
theorem C3_stage_error_policy_witness :
    AIFoundationsExpert.explain (fun _ => .ok (some "X")) "AI 개념 이해" [("concept", "신경망")] = "X" :=
  (C3_stage_error_policy (fun _ => .ok (some "X")) "AI 개념 이해" [("concept", "신경망")] "").1.1
    "X" rfl (by decide)


/-- Counterexample to claim C4 as stated: if the exception strikes after the
third step record is appended (the `st.success` call of stage 3 sits between
the append and `status = "completed"`), the finalized log has `status =
"error"`, a recorded error message, and `steps` of length exactly 3 — not
`< 3` as the iff of the claim requires. -/
theorem C4_counterexample :
    (get_ai_education_core (fun _ => ModelResult.ok (some "X")) (fun _ => "12:00:00")
        (some (FaultPoint.afterStep3, "boom")) "AI 개념 이해" [("concept", "신경망")]).log.status =
      "error" ∧
    (get_ai_education_core (fun _ => ModelResult.ok (some "X")) (fun _ => "12:00:00")
        (some (FaultPoint.afterStep3, "boom")) "AI 개념 이해" [("concept", "신경망")]).log.error.isSome =
      true ∧
    (get_ai_education_core (fun _ => ModelResult.ok (some "X")) (fun _ => "12:00:00")
        (some (FaultPoint.afterStep3, "boom")) "AI 개념 이해" [("concept", "신경망")]).log.steps.length =
      3 :=
  ⟨rfl, rfl, rfl⟩

/-- Claim C4, amended: every finalized run log has at most 3 steps; when the
status is `completed` the length is exactly 3; when the status is `error` an
error message is recorded; a fault-free run always completes; and unless the
exception strikes after the third step record is appended, the length is 3
iff the status is `completed`. -/
theorem C4_runlog_invariant_amended (model : Model) (clock : Nat → String) (fault : Fault)
    (service_type : String) (input_data : InputData) (workflow_logs : List RunLog) :
    ∃ l : RunLog,
      (get_ai_education model clock fault service_type input_data workflow_logs).2 =
        workflow_logs ++ [l] ∧
      l.steps.length ≤ 3 ∧
      (l.status = "completed" → l.steps.length = 3) ∧
      (l.status = "error" → l.error.isSome = true) ∧
      (fault = none → l.status = "completed") ∧
      ((∀ e : String, fault ≠ some (FaultPoint.afterStep3, e)) →
        (l.steps.length = 3 ↔ l.status = "completed")) := by
  rcases fault with _ | ⟨fp, e⟩
  · exact ⟨_, rfl, Nat.le_refl 3, fun _ => rfl,
      fun (h : ("completed" : String) = "error") => absurd h (by decide), fun _ => rfl,
      fun _ => ⟨fun _ => rfl, fun _ => rfl⟩⟩
  · cases fp
    · exact ⟨_, rfl, Nat.zero_le 3,
        fun (h : ("error" : String) = "completed") => absurd h (by decide), fun _ => rfl,
        fun h => Option.noConfusion h,
        fun _ => ⟨fun (h : (0 : Nat) = 3) => absurd h (by decide),
          fun (h : ("error" : String) = "completed") => absurd h (by decide)⟩⟩
    · exact ⟨_, rfl, (by decide : (1 : Nat) ≤ 3),
        fun (h : ("error" : String) = "completed") => absurd h (by decide), fun _ => rfl,
        fun h => Option.noConfusion h,
        fun _ => ⟨fun (h : (1 : Nat) = 3) => absurd h (by decide),
          fun (h : ("error" : String) = "completed") => absurd h (by decide)⟩⟩
    · exact ⟨_, rfl, (by decide : (2 : Nat) ≤ 3),
        fun (h : ("error" : String) = "completed") => absurd h (by decide), fun _ => rfl,
        fun h => Option.noConfusion h,
        fun _ => ⟨fun (h : (2 : Nat) = 3) => absurd h (by decide),
          fun (h : ("error" : String) = "completed") => absurd h (by decide)⟩⟩
    · exact ⟨_, rfl, Nat.le_refl 3, fun _ => rfl, fun _ => rfl,
        fun h => Option.noConfusion h,
        fun H => absurd rfl (H e)⟩

/-- Witness for the amended C4: a concrete fault-free run appends one log with
3 steps and status `completed`. -/
theorem C4_runlog_invariant_amended_witness :
    ∃ l : RunLog,
      (get_ai_education (fun _ => ModelResult.ok (some "X")) (fun _ => "12:00:00") none
          "AI 개념 이해" [("concept", "신경망")] []).2 = [] ++ [l] ∧
      l.steps.length = 3 ∧ l.status = "completed" := by
  obtain ⟨l, h1, _, h3, _, h5, _⟩ :=
    C4_runlog_invariant_amended (fun _ => ModelResult.ok (some "X")) (fun _ => "12:00:00") none
      "AI 개념 이해" [("concept", "신경망")] []
  exact ⟨l, h1, h3 (h5 rfl), h5 rfl⟩

/-- Claim C5: if the model client raises `ModelError("quota exceeded")` on
every call then, for any service type and input data, the fault-free run
returns the stage-3 fallback string embedding "quota exceeded" verbatim, and
the log status is still `completed` with 3 steps recorded. -/
theorem C5_quota_exceeded_absorbed (clock : Nat → String) (service_type : String)
    (input_data : InputData) :
    (get_ai_education_core (fun _ => ModelResult.err "quota exceeded") clock none
        service_type input_data).final_text =
      "학습 경로 생성 중 오류가 발생했습니다: " ++ "quota exceeded" ∧
    containsStr
      ((get_ai_education_core (fun _ => ModelResult.err "quota exceeded") clock none
        service_type input_data).final_text) "quota exceeded" ∧
    (get_ai_education_core (fun _ => ModelResult.err "quota exceeded") clock none
        service_type input_data).log.status = "completed" ∧
    (get_ai_education_core (fun _ => ModelResult.err "quota exceeded") clock none
        service_type input_data).log.steps.length = 3 := by
  refine ⟨rfl, ⟨"학습 경로 생성 중 오류가 발생했습니다: ", "", ?_⟩, rfl, rfl⟩
  exact (String.append_empty _).symm


/-- Claim C6: for any `service_type` outside the five known service names,
all three stages select their `_create_general_*` fallback template, and the
fault-free run completes with log status `completed`. -/
theorem C6_unknown_service_generic_path (service_type : String)
    (h : service_type ∉ knownServiceTypes) (model : Model) (clock : Nat → String)
    (input_data : InputData) (previous_explanation : String) :
    AIFoundationsExpert.select_prompt service_type input_data =
      AIFoundationsExpert.create_general_foundations_prompt input_data service_type ∧
    PracticalAIExpert.select_prompt previous_explanation service_type input_data =
      PracticalAIExpert.create_general_practical_prompt previous_explanation input_data service_type ∧
    LearningPathExpert.select_prompt previous_explanation service_type input_data =
      LearningPathExpert.create_general_learning_prompt previous_explanation input_data service_type ∧
    (get_ai_education_core model clock none service_type input_data).log.status = "completed" ∧
    (get_ai_education_core model clock none service_type input_data).log.steps.length = 3 := by
  simp only [knownServiceTypes, List.mem_cons, List.not_mem_nil, or_false, not_or] at h
  obtain ⟨h1, h2, h3, h4, h5⟩ := h
  refine ⟨?_, ?_, ?_, rfl, rfl⟩
  · simp [AIFoundationsExpert.select_prompt, h1, h2, h3, h4, h5]
  · simp [PracticalAIExpert.select_prompt, h1, h2, h3, h4, h5]
  · simp [LearningPathExpert.select_prompt, h1, h2, h3, h4, h5]

/-- Witness for C6: `"Unknown"` is not a known service name and its fault-free
run completes. -/
theorem C6_unknown_service_generic_path_witness :
    "Unknown" ∉ knownServiceTypes ∧
    (get_ai_education_core (fun _ => ModelResult.ok (some "X")) (fun _ => "12:00:00") none
        "Unknown" []).log.status = "completed" :=
  ⟨by decide,
   (C6_unknown_service_generic_path "Unknown" (by decide)
      (fun _ => ModelResult.ok (some "X")) (fun _ => "12:00:00") [] "").2.2.2.1⟩

theorem length_pos_of_ne_empty {s : String} (h : s ≠ "") : 0 < s.length := by
  cases s with
  | mk data =>
    cases data with
    | nil => exact absurd rfl h
    | cons c cs => exact Nat.succ_pos cs.length

/-- Stage 3 always returns a non-empty string, whatever the model does. -/
theorem finalize_length_pos (model : Model) (previous_explanation service_type : String)
    (input_data : InputData) :
    0 < (LearningPathExpert.finalize model previous_explanation service_type input_data).length := by
  unfold LearningPathExpert.finalize
  cases model (LearningPathExpert.full_prompt previous_explanation service_type input_data) with
  | ok t =>
    cases t with
    | none => decide
    | some v =>
      by_cases hv : v = ""
      · simp only [textOrFallback, hv, if_pos]
        decide
      · simp only [textOrFallback, if_neg hv]
        exact length_pos_of_ne_empty hv
  | err msg =>
    rw [String.length_append]
    have h : 0 < ("학습 경로 생성 중 오류가 발생했습니다: ").length := by decide
    omega

/-- Claim C7: `get_ai_education` always returns a (text, logs) pair in which
exactly one run log has been appended, and the returned final text is never
the empty string — on every path it is generated text, a per-stage fallback,
or the fixed apology, all non-empty. -/
theorem C7_run_total_final_text_nonempty (model : Model) (clock : Nat → String)
    (fault : Fault) (service_type : String) (input_data : InputData)
    (workflow_logs : List RunLog) :
    ∃ (t : String) (l : RunLog),
      get_ai_education model clock fault service_type input_data workflow_logs =
        (t, workflow_logs ++ [l]) ∧ 0 < t.length := by
  rcases fault with _ | ⟨fp, e⟩
  · exact ⟨_, _, rfl, finalize_length_pos model _ service_type input_data⟩
  · cases fp
    · exact ⟨_, _, rfl, (by decide : 0 < apology.length)⟩
    · exact ⟨_, _, rfl, (by decide : 0 < apology.length)⟩
    · exact ⟨_, _, rfl, (by decide : 0 < apology.length)⟩
    · exact ⟨_, _, rfl, (by decide : 0 < apology.length)⟩


/-- Claim C8: prompt-template construction is pure and deterministic — two
calls of the template builders (the per-stage `if`/`elif` selection over the
`_create_*` functions) with identical (serviceType, inputData, priorText)
arguments yield character-for-character identical output; no timestamp or
randomness enters a template (in this embedding the clock is a separate
parameter that no template function receives). -/
theorem C8_buildPrompt_deterministic (st1 st2 : String) (d1 d2 : InputData)
    (p1 p2 : String) (hst : st1 = st2) (hd : d1 = d2) (hp : p1 = p2) :
    AIFoundationsExpert.select_prompt st1 d1 = AIFoundationsExpert.select_prompt st2 d2 ∧
    PracticalAIExpert.select_prompt p1 st1 d1 = PracticalAIExpert.select_prompt p2 st2 d2 ∧
    LearningPathExpert.select_prompt p1 st1 d1 = LearningPathExpert.select_prompt p2 st2 d2 ∧
    AIFoundationsExpert.create_concept_prompt d1 = AIFoundationsExpert.create_concept_prompt d2 ∧
    PracticalAIExpert.create_concept_practical_prompt p1 d1 =
      PracticalAIExpert.create_concept_practical_prompt p2 d2 := by
  subst hst
  subst hd
  subst hp
  exact ⟨rfl, rfl, rfl, rfl, rfl⟩

/-- Witness for C8 at concrete equal arguments. -/
theorem C8_buildPrompt_deterministic_witness :
    AIFoundationsExpert.create_concept_prompt [("concept", "CNN")] =
      AIFoundationsExpert.create_concept_prompt [("concept", "CNN")] :=
  (C8_buildPrompt_deterministic "AI 개념 이해" "AI 개념 이해" [("concept", "CNN")]
    [("concept", "CNN")] "p" "p" rfl rfl rfl).2.2.2.1

/-- If a run sends a first prompt at all, that prompt is
`AIFoundationsExpert.full_prompt service_type input_data`. -/
theorem prompts_sent_head_eq (model : Model) (clock : Nat → String) (fault : Fault)
    (service_type : String) (input_data : InputData) (q : String)
    (h : (get_ai_education_core model clock fault service_type input_data).prompts_sent.head? =
      some q) :
    q = AIFoundationsExpert.full_prompt service_type input_data := by
  rcases fault with _ | ⟨fp, e⟩
  · exact (Option.some.inj h).symm
  · cases fp
    · exact Option.noConfusion h
    · exact (Option.some.inj h).symm
    · exact (Option.some.inj h).symm
    · exact (Option.some.inj h).symm

/-- Claim C9: the stage-1 composed prompt is a function of
(serviceType, inputData) only — `explain` takes no prior text, so any two
runs with the same service type and input data that send a stage-1 prompt
send the identical prompt, whatever their model client, clock, or fault. -/
theorem C9_stage1_prompt_depends_only_on_inputs
    (m1 m2 : Model) (c1 c2 : Nat → String) (f1 f2 : Fault)
    (service_type : String) (input_data : InputData) (q1 q2 : String)
    (h1 : (get_ai_education_core m1 c1 f1 service_type input_data).prompts_sent.head? = some q1)
    (h2 : (get_ai_education_core m2 c2 f2 service_type input_data).prompts_sent.head? = some q2) :
    q1 = q2 ∧ q1 = AIFoundationsExpert.full_prompt service_type input_data := by
  have e1 := prompts_sent_head_eq m1 c1 f1 service_type input_data q1 h1
  have e2 := prompts_sent_head_eq m2 c2 f2 service_type input_data q2 h2
  exact ⟨e1.trans e2.symm, e1⟩

/-- Witness for C9: two concrete runs with different models, clocks and
faults send the same first prompt. -/
theorem C9_stage1_prompt_depends_only_on_inputs_witness :
    AIFoundationsExpert.full_prompt "AI 개념 이해" [("concept", "q")] =
      AIFoundationsExpert.full_prompt "AI 개념 이해" [("concept", "q")] :=
  (C9_stage1_prompt_depends_only_on_inputs
    (fun _ => ModelResult.ok (some "A")) (fun _ => ModelResult.err "x")
    (fun _ => "t1") (fun _ => "t2") none (some (FaultPoint.afterStep1, "boom"))
    "AI 개념 이해" [("concept", "q")] _ _ rfl rfl).1

/-- Claim C10: for a `service_type` outside the known enumeration, each
stage embeds in its generic template the string rendering of the whole
`input_data` mapping verbatim, and depends on `input_data` only through that
rendering — no individual field is looked up on this path. -/
theorem C10_generic_embeds_whole_input (service_type : String)
    (h : service_type ∉ knownServiceTypes) (input_data : InputData)
    (previous_explanation : String) :
    containsStr (AIFoundationsExpert.select_prompt service_type input_data)
      (pyStrDict input_data) ∧
    containsStr (PracticalAIExpert.select_prompt previous_explanation service_type input_data)
      (pyStrDict input_data) ∧
    containsStr (LearningPathExpert.select_prompt previous_explanation service_type input_data)
      (pyStrDict input_data) ∧
    (∀ d : InputData, pyStrDict d = pyStrDict input_data →
      AIFoundationsExpert.select_prompt service_type d =
        AIFoundationsExpert.select_prompt service_type input_data ∧
      PracticalAIExpert.select_prompt previous_explanation service_type d =
        PracticalAIExpert.select_prompt previous_explanation service_type input_data ∧
      LearningPathExpert.select_prompt previous_explanation service_type d =
        LearningPathExpert.select_prompt previous_explanation service_type input_data) := by
  simp only [knownServiceTypes, List.mem_cons, List.not_mem_nil, or_false, not_or] at h
  obtain ⟨h1, h2, h3, h4, h5⟩ := h
  refine ⟨?_, ?_, ?_, ?_⟩
  · simp only [AIFoundationsExpert.select_prompt, h1, h2, h3, h4, h5, if_false,
      AIFoundationsExpert.create_general_foundations_prompt]
    apply containsStr_append_right
    apply containsStr_append_left
    exact containsStr_refl _
  · simp only [PracticalAIExpert.select_prompt, h1, h2, h3, h4, h5, if_false,
      PracticalAIExpert.create_general_practical_prompt]
    apply containsStr_append_right
    apply containsStr_append_left
    exact containsStr_refl _
  · simp only [LearningPathExpert.select_prompt, h1, h2, h3, h4, h5, if_false,
      LearningPathExpert.create_general_learning_prompt]
    apply containsStr_append_right
    apply containsStr_append_left
    exact containsStr_refl _
  · intro d hd
    refine ⟨?_, ?_, ?_⟩
    · simp only [AIFoundationsExpert.select_prompt, h1, h2, h3, h4, h5, if_false,
        AIFoundationsExpert.create_general_foundations_prompt, hd]
    · simp only [PracticalAIExpert.select_prompt, h1, h2, h3, h4, h5, if_false,
        PracticalAIExpert.create_general_practical_prompt, hd]
    · simp only [LearningPathExpert.select_prompt, h1, h2, h3, h4, h5, if_false,
        LearningPathExpert.create_general_learning_prompt, hd]

/-- Witness for C10: at `"Unknown"` the stage-1 generic template contains
`str(input_data)` verbatim. -/
theorem C10_generic_embeds_whole_input_witness :
    containsStr (AIFoundationsExpert.select_prompt "Unknown" [("k", "v")])
      (pyStrDict [("k", "v")]) :=
  (C10_generic_embeds_whole_input "Unknown" (by decide) [("k", "v")] "").1

end AIStudyCoach
